import Mathlib

/-!
Verification development for the Hardware Engineering Workbench (het.py),
a SQLite-backed inventory and BOM management tool.  The SQLite tables and
the data-access code paths are shallowly embedded: each table row becomes a
structure, the database becomes lists of rows in rowid (insertion) order,
SQL REAL becomes the rationals, timestamps become natural numbers, and each
SQL statement or Python routine becomes an executable Lean function that is
translated line by line from the source.  Columns never consulted by any
modelled code path (image_path, footprint, created_date, supplier tables)
are omitted; columns left NULL by an INSERT are given the neutral values 0
resp. "" which every predicate in scope treats exactly as SQL treats NULL
(comparison predicates reject NULL rows and reject the 0-defaults alike).
-/

namespace HET

/-- Row of the components table (het.py init_database, lines 199-217).
The mpn column carries a UNIQUE constraint in the schema. -/
structure Component where
  id : Nat
  mpn : String
  manufacturer : String
  description : String
  category : String
  stock_qty : Int
  min_stock : Int
  unit_price : ℚ
  lifecycle_status : String
  last_checked : Option Nat
  datasheet_url : String
  notes : String
deriving DecidableEq, Repr

/-- Row of the price_history table (lines 220-229). -/
structure PriceHistoryEntry where
  id : Nat
  component_id : Nat
  price : ℚ
  date : Nat
  source : String
deriving DecidableEq, Repr

/-- Row of the projects table (lines 259-270); only the columns the modelled
code paths read are kept. -/
structure Project where
  id : Nat
  name : String
deriving DecidableEq, Repr

/-- Row of the bom table (lines 273-284).  Note that the schema declares an
INTEGER PRIMARY KEY id but no UNIQUE constraint on (project_id, component_id). -/
structure BomRow where
  id : Nat
  project_id : Nat
  component_id : Nat
  reference_designator : String
  quantity : Int
  do_not_populate : Int
deriving DecidableEq, Repr

/-- The SQLite database state: each table as a list of rows in rowid order,
plus the next rowid SQLite would assign on an id-less INSERT. -/
structure DB where
  components : List Component
  price_history : List PriceHistoryEntry
  projects : List Project
  bom : List BomRow
  next_component_id : Nat
  next_ph_id : Nat
  next_bom_id : Nat
deriving DecidableEq, Repr

/-! ### Python numeric parsing

The import dialog feeds raw CSV strings to Python int() and float(); a
non-numeric value raises ValueError.  The parsers below model the plain
decimal forms (optional surrounding whitespace, optional sign, digits, and
for float an optional fractional part), returning none where Python raises. -/

/-- Python str.strip(): remove leading and trailing whitespace.  Implemented
directly on the character list so that the kernel can evaluate it. -/
def pyStrip (s : String) : String :=
  ⟨((s.data.dropWhile Char.isWhitespace).reverse.dropWhile Char.isWhitespace).reverse⟩

/-- Numeric value of a digit string, most significant digit first. -/
def digitsToNat (l : List Char) : Nat :=
  l.foldl (fun acc c => acc * 10 + (c.toNat - 48)) 0

/-- Unsigned part of Python int(): a nonempty all-digit string. -/
def pyIntCore (l : List Char) : Option Nat :=
  if l ≠ [] ∧ l.all Char.isDigit then some (digitsToNat l) else none

/-- Python int() on a string: strip whitespace, optional sign, digits only.
Returns none where Python raises ValueError (for example on "x" or "4.0"). -/
def pyInt (s : String) : Option Int :=
  match (pyStrip s).data with
  | '+' :: rest => (pyIntCore rest).map (fun n => (n : Int))
  | '-' :: rest => (pyIntCore rest).map (fun n => -(n : Int))
  | l => (pyIntCore l).map (fun n => (n : Int))

/-- Unsigned part of Python float(): digits with an optional single dot,
at least one digit overall.  SQLite REAL values are modelled as rationals. -/
def pyFloatCore (l : List Char) : Option ℚ :=
  let ip := l.takeWhile (fun c => c ≠ '.')
  let rest := l.dropWhile (fun c => c ≠ '.')
  match rest with
  | [] => (pyIntCore ip).map (fun n => (n : ℚ))
  | _ :: frac =>
    if ip.all Char.isDigit ∧ frac.all Char.isDigit ∧ (ip ≠ [] ∨ frac ≠ []) then
      some ((digitsToNat ip : ℚ) + (digitsToNat frac : ℚ) / 10 ^ frac.length)
    else none

/-- Python float() on a string, restricted to plain decimal forms. -/
def pyFloat (s : String) : Option ℚ :=
  match (pyStrip s).data with
  | '+' :: rest => pyFloatCore rest
  | '-' :: rest => (pyFloatCore rest).map (fun q => -q)
  | l => pyFloatCore l

/-! ### BOM import (het.py import_bom / do_import, lines 1588-1626) -/

/-- One parsed CSV record as csv.DictReader hands it to do_import: each
recognized header is present or absent. -/
structure CsvRow where
  mpn : Option String
  part_number : Option String
  manufacturer : Option String
  description : Option String
  price : Option String
  reference : Option String
  qty : Option String
deriving DecidableEq, Repr

/-- The effective MPN of a row: the MPN header, else the Part Number header, else the empty string, stripped. -/
def rowMpn (r : CsvRow) : String :=
  pyStrip (r.mpn.getD (r.part_number.getD ""))

/-- The Price handling of do_import: a missing or empty Price yields 0,
otherwise Python float() runs and may raise. -/
def parsePrice : Option String → Option ℚ
  | none => some 0
  | some s => if s = "" then some 0 else pyFloat s

/-- The Qty handling of do_import: a missing Qty yields 1, otherwise Python int()
runs and may raise (also on the empty string). -/
def parseQty : Option String → Option Int
  | none => some 1
  | some s => pyInt s

/-- The INSERT OR REPLACE INTO bom of do_import (lines 1614-1617).  The bom
schema has only one uniqueness constraint, the INTEGER PRIMARY KEY id, and the
statement omits id, so SQLite assigns a fresh rowid and no conflict can ever
arise: the statement behaves as a plain INSERT appending one row. -/
def insertOrReplaceBom (db : DB) (pid cid : Nat) (ref : String) (qty : Int) : DB :=
  { db with
    bom := db.bom ++ [⟨db.next_bom_id, pid, cid, ref, qty, 0⟩]
    next_bom_id := db.next_bom_id + 1 }

/-- Processing of a single CSV row inside the do_import loop.  Returns the
database state reached together with an error message if an exception was
raised mid-row (Python evaluates the argument tuple of each execute call
before running it, so a bad Price aborts before the component INSERT while a
bad Qty aborts after it). -/
def importRow (now pid : Nat) (db : DB) (r : CsvRow) : DB × Option String :=
  if rowMpn r = "" then (db, none)
  else
    match db.components.find? (fun c => c.mpn = rowMpn r) with
    | some c =>
      match parseQty r.qty with
      | none => (db, some "ValueError: invalid literal for int")
      | some q => (insertOrReplaceBom db pid c.id (r.reference.getD "") q, none)
    | none =>
      match parsePrice r.price with
      | none => (db, some "ValueError: could not convert string to float")
      | some p =>
        let db1 : DB :=
          { db with
            components := db.components ++
              [{ id := db.next_component_id
                 mpn := rowMpn r
                 manufacturer := r.manufacturer.getD ""
                 description := r.description.getD ""
                 category := ""
                 stock_qty := 0
                 min_stock := 0
                 unit_price := p
                 lifecycle_status := "Active"
                 last_checked := some now
                 datasheet_url := ""
                 notes := "" }]
            next_component_id := db.next_component_id + 1 }
        match parseQty r.qty with
        | none => (db1, some "ValueError: invalid literal for int")
        | some q => (insertOrReplaceBom db1 pid db.next_component_id (r.reference.getD "") q, none)

/-- The do_import loop (lines 1595-1626): rows are processed in order inside
one try block; the first exception aborts the remaining rows and is reported
as an error, while full success commits and reports "BOM imported".  The
returned state is the connection state (committed on success, pending
otherwise). -/
def do_import (now pid : Nat) : DB → List CsvRow → DB × Option String
  | db, [] => (db, none)
  | db, r :: rs =>
    match importRow now pid db r with
    | (db1, none) => do_import now pid db1 rs
    | (db1, some e) => (db1, some e)

/-- An empty database as created by init_database (rowids start at 1),
with a single project named P. -/
def db0 : DB :=
  { components := []
    price_history := []
    projects := [⟨1, "P"⟩]
    bom := []
    next_component_id := 1
    next_ph_id := 1
    next_bom_id := 1 }

/-- The CSV row of the idempotence scenario in the specification. -/
def rowR1K : CsvRow :=
  { mpn := some "R1K"
    part_number := none
    manufacturer := none
    description := none
    price := none
    reference := some "R1"
    qty := some "4" }

/-! ### Lexicographic string order

SQLite orders TEXT columns by bytewise memcmp under the default BINARY
collation; on the ASCII data in scope this is the lexicographic order on
characters, implemented here as an executable comparison and related below
to the standard linear order on String. -/

/-- Lexicographic less-or-equal on character lists. -/
def charListLe : List Char → List Char → Bool
  | [], _ => true
  | _ :: _, [] => false
  | a :: as, b :: bs => if a < b then true else if b < a then false else charListLe as bs

/-- Lexicographic less-or-equal on strings. -/
def strLe (s t : String) : Bool := charListLe s.data t.data

/-! ### Component listing, filtering and search -/

/-- SELECT ... FROM components ORDER BY mpn, as issued by refresh_components
(lines 1479-1482) and both branches of filter_components (lines 777-784). -/
def sortByMpn (l : List Component) : List Component :=
  l.mergeSort (fun a b => strLe a.mpn b.mpn)

/-- refresh_components (lines 1474-1482): the unfiltered component listing. -/
def refresh_components (db : DB) : List Component := sortByMpn db.components

/-- filter_components (lines 769-784): category filter, exact match or the
"All Categories" sentinel, both branches ORDER BY mpn. -/
def filter_components (db : DB) (category : String) : List Component :=
  if category = "All Categories" then sortByMpn db.components
  else sortByMpn (db.components.filter (fun c => c.category = category))

/-- Python str.lower(), character by character. -/
def lowerStr (s : String) : String := ⟨s.data.map Char.toLower⟩

/-- Does the needle occur at the head of the haystack. -/
def startsWithChars : List Char → List Char → Bool
  | _, [] => true
  | [], _ :: _ => false
  | h :: hs, n :: ns => h = n && startsWithChars hs ns

/-- Does the needle occur contiguously anywhere in the haystack. -/
def hasSub : List Char → List Char → Bool
  | [], needle => needle.isEmpty
  | h :: t, needle => startsWithChars (h :: t) needle || hasSub t needle

/-- LOWER(col) LIKE '%' || keyword || '%' with an already-lowercased keyword:
case-insensitive substring containment (wildcard metacharacters inside the
keyword are out of scope for the claims). -/
def likeContains (hay kw : String) : Bool :=
  hasSub (lowerStr hay).data (lowerStr kw).data

/-- search_components (lines 1631-1645): keyword filter over mpn,
manufacturer and description.  The SQL carries no ORDER BY, so rows come
back in rowid (insertion) order. -/
def search_components (db : DB) (keyword : String) : List Component :=
  db.components.filter (fun c =>
    likeContains c.mpn keyword || likeContains c.manufacturer keyword ||
      likeContains c.description keyword)

/-! ### add_component (lines 1375-1407) -/

/-- The row that the INSERT of the add-component dialog appends: every text
field stripped, lifecycle_status defaulted to Active, last_checked = now,
rowid the next free one. -/
def addedComponent (db : DB) (now : Nat) (mpn manufacturer description category : String)
    (stock_qty min_stock : Int) (unit_price : ℚ) (datasheet_url notes : String) :
    Component :=
  { id := db.next_component_id
    mpn := pyStrip mpn
    manufacturer := pyStrip manufacturer
    description := pyStrip description
    category := pyStrip category
    stock_qty := stock_qty
    min_stock := min_stock
    unit_price := unit_price
    lifecycle_status := "Active"
    last_checked := some now
    datasheet_url := pyStrip datasheet_url
    notes := pyStrip notes }

/-- The save callback of the add-component dialog (lines 1375-1407): empty
stripped MPN or manufacturer is rejected up front; a duplicate mpn makes the
INSERT violate the UNIQUE constraint on components.mpn, which the
surrounding except reports as an error without inserting.  Otherwise one row
is appended.  The numeric fields arrive already converted (the dialog
converts them with int() and float() upstream of the behaviour the claims describe). -/
def add_component (db : DB) (now : Nat) (mpn manufacturer description category : String)
    (stock_qty min_stock : Int) (unit_price : ℚ) (datasheet_url notes : String) :
    Except String DB :=
  if pyStrip mpn = "" ∨ pyStrip manufacturer = "" then
    .error "MPN and Manufacturer are required"
  else if db.components.any (fun c => c.mpn = pyStrip mpn) then
    .error "UNIQUE constraint failed components mpn"
  else
    .ok { db with
      components := db.components ++
        [addedComponent db now mpn manufacturer description category stock_qty min_stock
          unit_price datasheet_url notes]
      next_component_id := db.next_component_id + 1 }

/-! ### Alert sets (update_alerts, lines 475-518) -/

/-- SELECT ... WHERE stock_qty < min_stock AND min_stock > 0 (lines 480-483). -/
def update_alerts_low_stock (db : DB) : List Component :=
  db.components.filter (fun c => c.stock_qty < c.min_stock && c.min_stock > 0)

/-- SELECT ... WHERE lifecycle_status IN (Obsolete, EOL, NRND)
(lines 492-495). -/
def update_alerts_lifecycle (db : DB) : List Component :=
  db.components.filter (fun c =>
    c.lifecycle_status = "Obsolete" || c.lifecycle_status = "EOL" ||
      c.lifecycle_status = "NRND")

/-- The price-increase query (lines 504-512): self-join of price_history on
the component, WHERE ph2.date > ph1.date AND ph2.price > ph1.price * 1.1,
GROUP BY c.mpn.  Since mpn is UNIQUE, grouping by mpn yields one result row
per qualifying component, modelled as a filter over the components table.
The Python float literal 1.1 is modelled by the rational 11/10 (the double
closest to 1.1 differs from it by under 1e-16; every claim instance is
decided identically by both). -/
def update_alerts_price_changes (db : DB) : List Component :=
  db.components.filter (fun c =>
    db.price_history.any (fun ph1 => db.price_history.any (fun ph2 =>
      ph1.component_id = c.id && ph2.component_id = c.id &&
        ph1.date < ph2.date && ph1.price * (11 / 10) < ph2.price)))

/-! ### Dashboard counters (update_dashboard_stats, lines 1547-1561) -/

/-- The four stat cards of the dashboard. -/
structure DashboardStats where
  projects : Nat
  components : Nat
  low_stock_alerts : Nat
  obsolete_parts : Nat
deriving DecidableEq, Repr

/-- update_dashboard_stats: four COUNT queries.  Note the fourth counts
lifecycle_status IN (Obsolete, EOL) only. -/
def update_dashboard_stats (db : DB) : DashboardStats :=
  { projects := db.projects.length
    components := db.components.length
    low_stock_alerts :=
      (db.components.filter (fun c => c.stock_qty < c.min_stock && c.min_stock > 0)).length
    obsolete_parts :=
      (db.components.filter (fun c =>
        c.lifecycle_status = "Obsolete" || c.lifecycle_status = "EOL")).length }

/-! ### Cost rollup (cost_analysis, lines 1660-1679) -/

/-- Contribution of one bom row to SUM(b.quantity * c.unit_price): the inner
join pairs the row with every components row of matching id (exactly one in
a well-formed database, none if the line dangles). -/
def rowCost (comps : List Component) (b : BomRow) : ℚ :=
  ((comps.filter (fun c => c.id = b.component_id)).map
    (fun c => (b.quantity : ℚ) * c.unit_price)).sum

/-- SELECT SUM(b.quantity * c.unit_price) FROM bom b JOIN components c ...
WHERE b.project_id = ?, with the NULL that SUM returns on an empty join
coalesced to 0 by the trailing `result[0] or 0`. -/
def cost_analysis (db : DB) (pid : Nat) : ℚ :=
  ((db.bom.filter (fun b => b.project_id = pid)).map (rowCost db.components)).sum

/-! ### Price update worker (update_prices_octopart, lines 807-889) -/

/-- What one pricing lookup yields for a component.  The per-item
try block turns any failure into a skip, modelled by an Option-valued lookup
oracle. -/
structure LookupResult where
  price : ℚ
  lifecycle : String
deriving DecidableEq, Repr

/-- The per-component write-back (lines 859-869): UPDATE components SET
unit_price, lifecycle_status, last_checked WHERE id = ?, then INSERT INTO
price_history (component_id, price, source) with the source label Octopart. -/
def updatePriceAndLifecycle (db : DB) (cid : Nat) (price : ℚ) (status : String)
    (now : Nat) : DB :=
  { db with
    components := db.components.map (fun c =>
      if c.id = cid then
        { c with unit_price := price, lifecycle_status := status, last_checked := some now }
      else c)
    price_history := db.price_history ++ [⟨db.next_ph_id, cid, price, now, "Octopart"⟩]
    next_ph_id := db.next_ph_id + 1 }

/-- SELECT id, mpn, manufacturer FROM components LIMIT 10 (lines 827-829). -/
def select_batch (db : DB) : List (Nat × String × String) :=
  (db.components.map (fun c => (c.id, c.mpn, c.manufacturer))).take 10

/-- The worker loop (lines 833-875): per component, a failed lookup is
caught and skipped (continue); a successful one writes back and increments
updated_count.  Returns the final state and the reported success count. -/
def run_batch (now : Nat) (lookup : Nat → String → String → Option LookupResult) :
    List (Nat × String × String) → DB → DB × Nat
  | [], db => (db, 0)
  | t :: rest, db =>
    match lookup t.1 t.2.1 t.2.2 with
    | none => run_batch now lookup rest db
    | some r =>
      let out := run_batch now lookup rest (updatePriceAndLifecycle db t.1 r.price r.lifecycle now)
      (out.1, out.2 + 1)

/-- The whole worker body: batch selection followed by the loop; the single
commit at the end and the UI marshalling do not affect the database value. -/
def update_prices_octopart (db : DB) (now : Nat)
    (lookup : Nat → String → String → Option LookupResult) : DB × Nat :=
  run_batch now lookup (select_batch db) db

/-! ### The simulated Octopart response (lines 854-856) -/

/-- round(x, 2) on the simulated price: rounding to two decimal places.
Python rounds half to even while the Mathlib round rounds half up; the two
agree away from exact half-cents and satisfy the same bounds. -/
def round2 (q : ℚ) : ℚ := (round (q * 100) : ℚ) / 100

/-- The population passed to random.choice. -/
def lifecycle_choices : List String := ["Active", "Active", "Active", "NRND", "EOL"]

/-- random.choice(lifecycle_choices) driven by an arbitrary draw k. -/
def simulated_lifecycle (k : Nat) : String := lifecycle_choices.getD (k % 5) "Active"

/-- The simulated lookup: round(random.uniform(0.10, 50.00), 2) for the
price, random.choice for the lifecycle, and no failure path.  u and k are
the random draws, indexed by component id. -/
def sim_lookup (u : Nat → ℚ) (k : Nat → Nat) :
    Nat → String → String → Option LookupResult :=
  fun cid _ _ => some ⟨round2 (u cid), simulated_lifecycle (k cid)⟩

/-! ### Specification-side predicates (for refinement comparison only) -/

/-- Low-stock membership as the specification words it. -/
def specLowStock (c : Component) : Prop :=
  c.stock_qty < c.min_stock ∧ 0 < c.min_stock

instance (c : Component) : Decidable (specLowStock c) := by
  unfold specLowStock
  infer_instance

/-- Lifecycle-risk membership as the specification words it: status in the
set of Obsolete, EOL and NRND. -/
def specLifecycleRisk (c : Component) : Prop :=
  c.lifecycle_status = "Obsolete" ∨ c.lifecycle_status = "EOL" ∨
    c.lifecycle_status = "NRND"

instance (c : Component) : Decidable (specLifecycleRisk c) := by
  unfold specLifecycleRisk
  infer_instance

/-- A value with at most two decimal places. -/
def TwoDecimal (q : ℚ) : Prop := ∃ n : ℤ, q = (n : ℚ) / 100

/-- Doubling the quantity of every bom line of one project, as the linearity
property of the spec describes. -/
def doubleQty (db : DB) (pid : Nat) : DB :=
  { db with
    bom := db.bom.map (fun b =>
      if b.project_id = pid then { b with quantity := 2 * b.quantity } else b) }

/-! ### Concrete fixtures on which the claims are evaluated -/

/-- Shorthand for a components row; the fields that a given claim does not
vary are fixed. -/
def mkComp (id : Nat) (mpn status : String) (stock min_stock : Int) (price : ℚ) :
    Component :=
  { id := id
    mpn := mpn
    manufacturer := "Acme"
    description := "part"
    category := "Misc"
    stock_qty := stock
    min_stock := min_stock
    unit_price := price
    lifecycle_status := status
    last_checked := none
    datasheet_url := ""
    notes := "" }

/-- A valid CSV row named A. -/
def rowA : CsvRow :=
  { mpn := some "A", part_number := none, manufacturer := none, description := none
    price := none, reference := some "R1", qty := some "1" }

/-- A CSV row whose Qty does not parse as an integer. -/
def rowBadQty : CsvRow :=
  { mpn := some "B", part_number := none, manufacturer := none, description := none
    price := none, reference := some "R2", qty := some "x" }

/-- A valid CSV row named C, placed after the failing row. -/
def rowC : CsvRow :=
  { mpn := some "C", part_number := none, manufacturer := none, description := none
    price := none, reference := some "R3", qty := some "2" }

/-- One NRND component and nothing else. -/
def db3 : DB :=
  { components := [mkComp 1 "U1" "NRND" 0 0 0]
    price_history := [], projects := [], bom := []
    next_component_id := 2, next_ph_id := 1, next_bom_id := 1 }

/-- Two components and two bom lines on project 1, one referencing a
zero-priced component. -/
def db5 : DB :=
  { components := [mkComp 1 "FREE" "Active" 0 0 0, mkComp 2 "R3" "Active" 0 0 3]
    price_history := []
    projects := [⟨1, "P"⟩]
    bom := [⟨1, 1, 1, "R1", 2, 0⟩, ⟨2, 1, 2, "R2", 4, 0⟩]
    next_component_id := 3, next_ph_id := 1, next_bom_id := 3 }

/-- Component X with history 1.00 then 1.20, component Y with history 1.00
then 1.05 — the two scenarios of the price-increase example. -/
def db6 : DB :=
  { components := [mkComp 1 "X" "Active" 0 0 0, mkComp 2 "Y" "Active" 0 0 0]
    price_history :=
      [⟨1, 1, 1, 1, "Octopart"⟩, ⟨2, 1, 12 / 10, 2, "Octopart"⟩,
       ⟨3, 2, 1, 1, "Octopart"⟩, ⟨4, 2, 21 / 20, 2, "Octopart"⟩]
    projects := [], bom := []
    next_component_id := 3, next_ph_id := 5, next_bom_id := 1 }

/-- A component below its threshold and one with the threshold disabled. -/
def db7 : DB :=
  { components := [mkComp 1 "LOW" "Active" 5 10 0, mkComp 2 "OK" "Active" 5 0 0]
    price_history := [], projects := [], bom := []
    next_component_id := 3, next_ph_id := 1, next_bom_id := 1 }

/-- Five components for the batch price update. -/
def db8 : DB :=
  { components :=
      [mkComp 1 "P1" "Active" 0 0 0, mkComp 2 "P2" "Active" 0 0 0,
       mkComp 3 "P3" "Active" 0 0 0, mkComp 4 "P4" "Active" 0 0 0,
       mkComp 5 "P5" "Active" 0 0 0]
    price_history := [], projects := [], bom := []
    next_component_id := 6, next_ph_id := 1, next_bom_id := 1 }

/-- A lookup oracle that fails on component 3 and succeeds elsewhere. -/
def lk8 : Nat → String → String → Option LookupResult :=
  fun cid _ _ => if cid = 3 then none else some ⟨2, "Active"⟩

/-- Components inserted in the order B then A, so that rowid order differs
from MPN order. -/
def db9 : DB :=
  { components := [mkComp 1 "B" "Active" 0 0 0, mkComp 2 "A" "Active" 0 0 0]
    price_history := [], projects := [], bom := []
    next_component_id := 3, next_ph_id := 1, next_bom_id := 1 }

/-- One component, initially Obsolete, for the simulated price update. -/
def db10 : DB :=
  { components := [mkComp 1 "W" "Obsolete" 0 0 0]
    price_history := [], projects := [], bom := []
    next_component_id := 2, next_ph_id := 1, next_bom_id := 1 }

/-- A concrete uniform draw inside the interval. -/
def u0 : Nat → ℚ := fun _ => 333 / 25

/-- A concrete choice draw. -/
def k0 : Nat → Nat := fun i => i

/-! ### Lemmas about the lexicographic order -/

theorem charListLe_iff :
    ∀ as bs : List Char, charListLe as bs = true ↔ ¬ List.Lex (· < ·) bs as
  | [], bs => iff_of_true rfl (fun h => nomatch h)
  | a :: as, [] => iff_of_false (by simp [charListLe]) (fun h => h List.Lex.nil)
  | a :: as, b :: bs => by
    by_cases hab : a < b
    · refine iff_of_true (by simp [charListLe, hab]) (fun h => ?_)
      cases h with
      | rel hba => exact lt_asymm hab hba
      | cons h3 => exact lt_irrefl a hab
    · by_cases hba : b < a
      · refine iff_of_false (by simp [charListLe, hab, hba]) (fun h => ?_)
        exact h (List.Lex.rel hba)
      · have heq : a = b := le_antisymm (le_of_not_lt hba) (le_of_not_lt hab)
        subst heq
        have hstep : charListLe (a :: as) (a :: bs) = charListLe as bs := by
          simp [charListLe, hab, hba]
        rw [hstep, charListLe_iff as bs]
        constructor
        · intro h hlt
          cases hlt with
          | rel h1 => exact lt_irrefl a h1
          | cons h3 => exact h h3
        · intro h h3
          exact h (List.Lex.cons h3)

theorem strLe_iff_le (s t : String) : strLe s t = true ↔ s ≤ t := by
  rw [String.le_iff_toList_le, ← not_lt]
  exact charListLe_iff s.data t.data

theorem strLe_trans {a b c : String} (h1 : strLe a b = true) (h2 : strLe b c = true) :
    strLe a c = true := by
  rw [strLe_iff_le] at h1 h2 ⊢
  exact le_trans h1 h2

theorem strLe_total (s t : String) : (strLe s t || strLe t s) = true := by
  simp only [Bool.or_eq_true, strLe_iff_le]
  exact le_total s t

theorem sortByMpn_perm (l : List Component) : List.Perm (sortByMpn l) l :=
  List.mergeSort_perm l _

theorem sortByMpn_sorted (l : List Component) :
    (sortByMpn l).Pairwise (fun a b => a.mpn ≤ b.mpn) := by
  have h : (sortByMpn l).Pairwise (fun a b : Component => strLe a.mpn b.mpn = true) := by
    apply List.sorted_mergeSort
    · exact fun a b c hab hbc => strLe_trans hab hbc
    · exact fun a b => strLe_total a.mpn b.mpn
  exact h.imp (fun hab => (strLe_iff_le _ _).mp hab)

/-! ### Lemmas about do_import -/

theorem do_import_append (now pid : Nat) :
    ∀ (l1 : List CsvRow) (db db1 : DB) (l2 : List CsvRow),
      do_import now pid db l1 = (db1, none) →
      do_import now pid db (l1 ++ l2) = do_import now pid db1 l2
  | [], db, db1, l2, h => by
    cases h
    rfl
  | r :: rs, db, db1, l2, h => by
    rcases hrow : importRow now pid db r with ⟨d, oe⟩
    cases oe with
    | none =>
      have h' : do_import now pid d rs = (db1, none) := by
        rw [show do_import now pid db (r :: rs) = do_import now pid d rs from by
          simp [do_import, hrow]] at h
        exact h
      rw [show do_import now pid db (r :: rs ++ l2) = do_import now pid d (rs ++ l2) from by
        simp [do_import, hrow]]
      exact do_import_append now pid rs d db1 l2 h'
    | some e =>
      exfalso
      rw [show do_import now pid db (r :: rs) = (d, some e) from by
        simp [do_import, hrow]] at h
      cases h

theorem importRow_qty_error (now pid : Nat) (db : DB) (r : CsvRow) (s : String)
    (hm : rowMpn r ≠ "") (hq : r.qty = some s) (hs : pyInt s = none) :
    (importRow now pid db r).2.isSome = true := by
  have hqty : parseQty r.qty = none := by rw [hq]; exact hs
  unfold importRow
  rw [if_neg hm]
  cases hfind : db.components.find? (fun c => c.mpn = rowMpn r) with
  | some c => simp [hqty]
  | none =>
    cases hp : parsePrice r.price with
    | none => simp
    | some p => simp [hqty]

/-! ### Lemmas about the cost rollup -/

theorem rowCost_double (comps : List Component) (b b2 : BomRow)
    (hcid : b2.component_id = b.component_id) (hq : b2.quantity = 2 * b.quantity) :
    rowCost comps b2 = 2 * rowCost comps b := by
  have hcast : ((2 * b.quantity : Int) : ℚ) = 2 * (b.quantity : ℚ) := by push_cast; ring
  simp only [rowCost, hcid, hq, hcast, mul_assoc]
  exact List.sum_map_mul_left _ _ _

theorem cost_double_aux (comps : List Component) (pid : Nat) :
    ∀ l : List BomRow,
      (((l.map (fun b =>
          if b.project_id = pid then { b with quantity := 2 * b.quantity } else b)).filter
            (fun b => b.project_id = pid)).map (rowCost comps)).sum =
        2 * ((l.filter (fun b => b.project_id = pid)).map (rowCost comps)).sum
  | [] => by simp
  | b :: t => by
    by_cases hb : b.project_id = pid
    · rw [List.map_cons, if_pos hb]
      rw [List.filter_cons_of_pos (by simp [hb]), List.filter_cons_of_pos (by simp [hb])]
      rw [List.map_cons, List.map_cons, List.sum_cons, List.sum_cons]
      rw [rowCost_double comps b { b with quantity := 2 * b.quantity } rfl rfl,
        cost_double_aux comps pid t]
      ring
    · rw [List.map_cons, if_neg hb]
      rw [List.filter_cons_of_neg (by simp [hb]), List.filter_cons_of_neg (by simp [hb])]
      exact cost_double_aux comps pid t

/-! ### Lemmas about the price update worker -/

theorem run_batch_count (now : Nat) (lookup : Nat → String → String → Option LookupResult) :
    ∀ (l : List (Nat × String × String)) (db : DB),
      (run_batch now lookup l db).2 =
        (l.filter (fun t => (lookup t.1 t.2.1 t.2.2).isSome)).length
  | [], _ => rfl
  | t :: rest, db => by
    cases hl : lookup t.1 t.2.1 t.2.2 with
    | none => simp [run_batch, hl, run_batch_count now lookup rest db, List.filter_cons]
    | some r => simp [run_batch, hl, run_batch_count now lookup rest _, List.filter_cons]

theorem run_batch_components_length (now : Nat)
    (lookup : Nat → String → String → Option LookupResult) :
    ∀ (l : List (Nat × String × String)) (db : DB),
      (run_batch now lookup l db).1.components.length = db.components.length
  | [], _ => rfl
  | t :: rest, db => by
    cases hl : lookup t.1 t.2.1 t.2.2 with
    | none => simpa [run_batch, hl] using run_batch_components_length now lookup rest db
    | some r =>
      have ih := run_batch_components_length now lookup rest
        (updatePriceAndLifecycle db t.1 r.price r.lifecycle now)
      simpa [run_batch, hl, updatePriceAndLifecycle] using ih

theorem run_batch_history_length (now : Nat)
    (lookup : Nat → String → String → Option LookupResult) :
    ∀ (l : List (Nat × String × String)) (db : DB),
      (run_batch now lookup l db).1.price_history.length =
        db.price_history.length + (run_batch now lookup l db).2
  | [], _ => rfl
  | t :: rest, db => by
    cases hl : lookup t.1 t.2.1 t.2.2 with
    | none => simpa [run_batch, hl] using run_batch_history_length now lookup rest db
    | some r =>
      have ih := run_batch_history_length now lookup rest
        (updatePriceAndLifecycle db t.1 r.price r.lifecycle now)
      simp only [run_batch, hl, updatePriceAndLifecycle, List.length_append,
        List.length_cons, List.length_nil] at ih ⊢
      omega

theorem run_batch_history_shape (now : Nat)
    (lookup : Nat → String → String → Option LookupResult) (Pq : ℚ → Prop)
    (hlk : ∀ cid mpn man r, lookup cid mpn man = some r → Pq r.price) :
    ∀ (l : List (Nat × String × String)) (db : DB),
      ∀ e ∈ (run_batch now lookup l db).1.price_history,
        e ∈ db.price_history ∨ (Pq e.price ∧ e.source = "Octopart") := by
  intro l
  induction l with
  | nil => exact fun db e he => Or.inl he
  | cons t rest ih =>
    intro db e he
    cases hl : lookup t.1 t.2.1 t.2.2 with
    | none =>
      rw [show run_batch now lookup (t :: rest) db = run_batch now lookup rest db from by
        simp [run_batch, hl]] at he
      exact ih db e he
    | some r =>
      rw [show (run_batch now lookup (t :: rest) db).1 =
          (run_batch now lookup rest
            (updatePriceAndLifecycle db t.1 r.price r.lifecycle now)).1 from by
        simp [run_batch, hl]] at he
      rcases ih _ e he with hmem | hprops
      · simp only [updatePriceAndLifecycle] at hmem
        rcases List.mem_append.mp hmem with h1 | h2
        · exact Or.inl h1
        · have he2 := List.mem_singleton.mp h2
          subst he2
          exact Or.inr ⟨hlk t.1 t.2.1 t.2.2 r hl, rfl⟩
      · exact Or.inr hprops

theorem run_batch_components_shape (now : Nat)
    (lookup : Nat → String → String → Option LookupResult)
    (Pq : ℚ → Prop) (Ps : String → Prop)
    (hlk : ∀ cid mpn man r, lookup cid mpn man = some r → Pq r.price ∧ Ps r.lifecycle) :
    ∀ (l : List (Nat × String × String)) (db : DB),
      ∀ c ∈ (run_batch now lookup l db).1.components,
        c ∈ db.components ∨
          (Pq c.unit_price ∧ Ps c.lifecycle_status ∧ c.last_checked = some now) := by
  intro l
  induction l with
  | nil => exact fun db c hc => Or.inl hc
  | cons t rest ih =>
    intro db c hc
    cases hl : lookup t.1 t.2.1 t.2.2 with
    | none =>
      rw [show run_batch now lookup (t :: rest) db = run_batch now lookup rest db from by
        simp [run_batch, hl]] at hc
      exact ih db c hc
    | some r =>
      rw [show (run_batch now lookup (t :: rest) db).1 =
          (run_batch now lookup rest
            (updatePriceAndLifecycle db t.1 r.price r.lifecycle now)).1 from by
        simp [run_batch, hl]] at hc
      rcases ih _ c hc with hmem | hprops
      · simp only [updatePriceAndLifecycle] at hmem
        rcases List.mem_map.mp hmem with ⟨c0, hc0, hfc⟩
        by_cases hid : c0.id = t.1
        · rw [if_pos hid] at hfc
          subst hfc
          rcases hlk t.1 t.2.1 t.2.2 r hl with ⟨hq, hs⟩
          exact Or.inr ⟨hq, hs, rfl⟩
        · rw [if_neg hid] at hfc
          subst hfc
          exact Or.inl hc0
      · exact Or.inr hprops

theorem run_batch_preserves (now : Nat)
    (lookup : Nat → String → String → Option LookupResult) :
    ∀ (l : List (Nat × String × String)) (db : DB) (c : Component),
      c ∈ db.components →
      (∀ t ∈ l, t.1 = c.id → lookup t.1 t.2.1 t.2.2 = none) →
      c ∈ (run_batch now lookup l db).1.components
  | [], _, _, hc, _ => hc
  | t :: rest, db, c, hc, hcond => by
    cases hl : lookup t.1 t.2.1 t.2.2 with
    | none =>
      rw [show run_batch now lookup (t :: rest) db = run_batch now lookup rest db from by
        simp [run_batch, hl]]
      exact run_batch_preserves now lookup rest db c hc
        (fun t2 ht2 => hcond t2 (List.mem_cons_of_mem _ ht2))
    | some r =>
      have hne : t.1 ≠ c.id := by
        intro he
        rw [hcond t (List.mem_cons_self _ _) he] at hl
        cases hl
      rw [show (run_batch now lookup (t :: rest) db).1 =
          (run_batch now lookup rest
            (updatePriceAndLifecycle db t.1 r.price r.lifecycle now)).1 from by
        simp [run_batch, hl]]
      apply run_batch_preserves now lookup rest _ c ?_
        (fun t2 ht2 => hcond t2 (List.mem_cons_of_mem _ ht2))
      have hfc :
          (if c.id = t.1 then { c with unit_price := r.price, lifecycle_status := r.lifecycle, last_checked := some now } else c) ∈
            List.map (fun x : Component =>
              if x.id = t.1 then { x with unit_price := r.price, lifecycle_status := r.lifecycle, last_checked := some now } else x)
              db.components :=
        List.mem_map_of_mem _ hc
      rw [if_neg (fun h => hne h.symm)] at hfc
      simpa [updatePriceAndLifecycle] using hfc

theorem run_batch_append_fst (now : Nat)
    (lookup : Nat → String → String → Option LookupResult) :
    ∀ (l1 l2 : List (Nat × String × String)) (db : DB),
      (run_batch now lookup (l1 ++ l2) db).1 =
        (run_batch now lookup l2 (run_batch now lookup l1 db).1).1
  | [], l2, db => rfl
  | t :: rest, l2, db => by
    cases hl : lookup t.1 t.2.1 t.2.2 with
    | none =>
      simpa [run_batch, hl] using run_batch_append_fst now lookup rest l2 db
    | some r =>
      have ih := run_batch_append_fst now lookup rest l2
        (updatePriceAndLifecycle db t.1 r.price r.lifecycle now)
      simpa [run_batch, hl] using ih

theorem run_batch_updates (now : Nat)
    (lookup : Nat → String → String → Option LookupResult)
    (l1 l2 : List (Nat × String × String)) (db : DB) (c : Component) (r : LookupResult)
    (hc : c ∈ db.components)
    (h1 : ∀ t ∈ l1, t.1 ≠ c.id) (h2 : ∀ t ∈ l2, t.1 ≠ c.id)
    (hlk : lookup c.id c.mpn c.manufacturer = some r) :
    { c with unit_price := r.price, lifecycle_status := r.lifecycle, last_checked := some now }
      ∈ (run_batch now lookup (l1 ++ (c.id, c.mpn, c.manufacturer) :: l2) db).1.components := by
  rw [run_batch_append_fst]
  have hc1 : c ∈ (run_batch now lookup l1 db).1.components :=
    run_batch_preserves now lookup l1 db c hc (fun t ht he => absurd he (h1 t ht))
  rw [show (run_batch now lookup ((c.id, c.mpn, c.manufacturer) :: l2)
        (run_batch now lookup l1 db).1).1 =
      (run_batch now lookup l2
        (updatePriceAndLifecycle (run_batch now lookup l1 db).1 c.id r.price r.lifecycle
          now)).1 from by
    simp [run_batch, hlk]]
  have hfc :
      (if c.id = c.id then { c with unit_price := r.price, lifecycle_status := r.lifecycle, last_checked := some now } else c) ∈
        List.map (fun x : Component =>
          if x.id = c.id then { x with unit_price := r.price, lifecycle_status := r.lifecycle, last_checked := some now } else x)
          (run_batch now lookup l1 db).1.components :=
    List.mem_map_of_mem _ hc1
  rw [if_pos rfl] at hfc
  have hmem : { c with unit_price := r.price, lifecycle_status := r.lifecycle, last_checked := some now } ∈
      (updatePriceAndLifecycle (run_batch now lookup l1 db).1 c.id r.price r.lifecycle now).components := by
    simpa [updatePriceAndLifecycle] using hfc
  exact run_batch_preserves now lookup l2 _ _ hmem (fun t ht he => absurd he (h2 t ht))

/-! ### Lemmas about the simulated response -/

theorem round_mono_q (x y : ℚ) (h : x ≤ y) : round x ≤ round y := by
  rw [round_eq, round_eq]
  exact Int.floor_mono (by linarith)

theorem round2_bounds (q : ℚ) (h1 : 1 / 10 ≤ q) (h2 : q ≤ 50) :
    1 / 10 ≤ round2 q ∧ round2 q ≤ 50 ∧ TwoDecimal (round2 q) := by
  have e10 : round ((10 : ℚ)) = (10 : ℤ) := by
    rw [(by norm_num : ((10 : ℚ)) = (((10 : ℤ)) : ℚ)), round_intCast]
  have e5000 : round ((5000 : ℚ)) = (5000 : ℤ) := by
    rw [(by norm_num : ((5000 : ℚ)) = (((5000 : ℤ)) : ℚ)), round_intCast]
  have hlo : (10 : ℤ) ≤ round (q * 100) := by
    rw [← e10]
    exact round_mono_q _ _ (by linarith)
  have hhi : round (q * 100) ≤ (5000 : ℤ) := by
    rw [← e5000]
    exact round_mono_q _ _ (by linarith)
  have hloq : (10 : ℚ) ≤ ((round (q * 100) : ℤ) : ℚ) := by exact_mod_cast hlo
  have hhiq : (((round (q * 100) : ℤ)) : ℚ) ≤ 5000 := by exact_mod_cast hhi
  refine ⟨?_, ?_, ⟨round (q * 100), rfl⟩⟩
  · unfold round2
    linarith
  · unfold round2
    linarith

theorem simulated_lifecycle_cases (k : Nat) :
    (simulated_lifecycle k = "Active" ∨ simulated_lifecycle k = "NRND" ∨
      simulated_lifecycle k = "EOL") ∧ simulated_lifecycle k ≠ "Obsolete" := by
  have h5 : k % 5 < 5 := Nat.mod_lt _ (by norm_num)
  unfold simulated_lifecycle lifecycle_choices
  rcases h : k % 5 with _ | _ | _ | _ | _ | m
  · decide
  · decide
  · decide
  · decide
  · decide
  · omega

/-! ### The claims -/

/-- C1: the claim states that importing the same CSV row a second time for
the same project leaves exactly one BomLine for the (project, component)
pair.  On the code as written the second import appends a second bom row
instead: the bom table has no UNIQUE constraint on (project, component), so
the INSERT OR REPLACE never finds a conflict.  This theorem evaluates
the importer at the failing input: importing the row (MPN R1K, Reference R1,
Qty 4) twice into a fresh project succeeds both times yet leaves two bom
rows for the pair, both carrying the designator R1 and quantity 4. -/
theorem C1_duplicate_bom_line :
    (do_import 0 1 db0 [rowR1K]).2 = none ∧
    (do_import 0 1 (do_import 0 1 db0 [rowR1K]).1 [rowR1K]).2 = none ∧
    ((do_import 0 1 (do_import 0 1 db0 [rowR1K]).1 [rowR1K]).1.bom.filter
        (fun b => b.project_id = 1 && b.component_id = 1)) =
      [⟨1, 1, 1, "R1", 4, 0⟩, ⟨2, 1, 1, "R1", 4, 0⟩] := by
  decide

/-- C2 (counterexample): the claim says a failure on one row is caught, the
row is skipped and the import continues with the remaining rows.  Importing
the batch A, B-with-bad-Qty, C instead reports an error and never processes
row C, while row A (processed before the failure) is retained. -/
theorem C2_per_row_skip_refuted :
    (do_import 0 1 db0 [rowA, rowBadQty, rowC]).2.isSome = true ∧
    ((do_import 0 1 db0 [rowA, rowBadQty, rowC]).1.components.filter
      (fun c => c.mpn = "C")).length = 0 ∧
    ((do_import 0 1 db0 [rowA, rowBadQty, rowC]).1.components.filter
      (fun c => c.mpn = "A")).length = 1 := by
  decide

/-- C2 (amended): a row failure (here a non-numeric Qty) is caught once for
the whole batch: the import stops at the failing row, reports an error
rather than a success summary, and leaves the state reached so far — rows
already processed are retained, not rolled back, and rows after the failure
are never processed. -/
theorem C2_import_abort (now pid : Nat) (db db1 : DB) (rows1 rows2 : List CsvRow)
    (r : CsvRow) (s : String)
    (h1 : do_import now pid db rows1 = (db1, none))
    (hm : rowMpn r ≠ "") (hq : r.qty = some s) (hs : pyInt s = none) :
    (do_import now pid db (rows1 ++ r :: rows2)).2.isSome = true ∧
    (do_import now pid db (rows1 ++ r :: rows2)).1 = (importRow now pid db1 r).1 := by
  rw [do_import_append now pid rows1 db db1 (r :: rows2) h1]
  have herr := importRow_qty_error now pid db1 r s hm hq hs
  rcases hrow : importRow now pid db1 r with ⟨d, oe⟩
  cases oe with
  | none =>
    rw [hrow] at herr
    simp at herr
  | some e =>
    have hstep : do_import now pid db1 (r :: rows2) = (d, some e) := by
      simp [do_import, hrow]
    rw [hstep]
    exact ⟨rfl, rfl⟩

theorem C2_import_abort_witness :
    (do_import 0 1 db0 ([] ++ rowBadQty :: [rowC])).2.isSome = true ∧
    (do_import 0 1 db0 ([] ++ rowBadQty :: [rowC])).1 = (importRow 0 1 db0 rowBadQty).1 :=
  C2_import_abort 0 1 db0 db0 [] [rowC] rowBadQty "x" rfl (by decide) rfl (by decide)

/-- C3 (counterexample): the claim says the fourth dashboard counter equals
the cardinality of the lifecycle-risk set with statuses Obsolete, EOL and
NRND.  On a database holding a single NRND component the dashboard counter
is 0 while that set has cardinality 1: the dashboard query counts only
Obsolete and EOL. -/
theorem C3_nrnd_undercounted :
    ¬ ((update_dashboard_stats db3).obsolete_parts =
        (db3.components.filter (fun c => decide (specLifecycleRisk c))).length) := by
  decide

/-- C3 (amended): the first three dashboard counters are the project count,
the component count and the cardinality of the low-stock set; the fourth
counts only the components whose status is Obsolete or EOL — that is, the
lifecycle-risk set of the specification minus its NRND members — while the
alerts panel, by contrast, does list all of Obsolete, EOL and NRND. -/
theorem C3_dashboard_counters (db : DB) (c : Component) :
    (update_dashboard_stats db).projects = db.projects.length ∧
    (update_dashboard_stats db).components = db.components.length ∧
    (update_dashboard_stats db).low_stock_alerts =
      (db.components.filter (fun x => decide (specLowStock x))).length ∧
    (update_dashboard_stats db).obsolete_parts =
      (db.components.filter (fun x =>
        decide (specLifecycleRisk x ∧ x.lifecycle_status ≠ "NRND"))).length ∧
    (c ∈ update_alerts_lifecycle db ↔ c ∈ db.components ∧ specLifecycleRisk c) ∧
    (c ∈ update_alerts_low_stock db ↔ c ∈ db.components ∧ specLowStock c) := by
  refine ⟨rfl, rfl, ?_, ?_, ?_, ?_⟩
  · apply congrArg List.length
    apply List.filter_congr
    intro x _
    simp [specLowStock]
  · apply congrArg List.length
    apply List.filter_congr
    intro x _
    by_cases h1 : x.lifecycle_status = "Obsolete" <;>
      by_cases h2 : x.lifecycle_status = "EOL" <;>
        by_cases h3 : x.lifecycle_status = "NRND" <;>
          simp_all [specLifecycleRisk]
  · simp [update_alerts_lifecycle, List.mem_filter, specLifecycleRisk, or_assoc]
  · simp [update_alerts_low_stock, List.mem_filter, specLowStock, and_assoc]

/-- C4: addComponent fails when the stripped MPN or manufacturer is empty or
when a component with the same mpn already exists; otherwise it appends
exactly one new row whose lifecycle status is Active and whose last-checked
field is the current time, and the component listing then returns exactly
one row with that mpn, namely the inserted one. -/
theorem C4_add_component (db : DB) (now : Nat)
    (mpn manufacturer description category : String) (stock_qty min_stock : Int)
    (unit_price : ℚ) (datasheet_url notes : String) :
    ((pyStrip mpn = "" ∨ pyStrip manufacturer = "") →
      ∃ msg, add_component db now mpn manufacturer description category stock_qty
        min_stock unit_price datasheet_url notes = .error msg) ∧
    ((∃ c ∈ db.components, c.mpn = pyStrip mpn) →
      ∃ msg, add_component db now mpn manufacturer description category stock_qty
        min_stock unit_price datasheet_url notes = .error msg) ∧
    (pyStrip mpn ≠ "" → pyStrip manufacturer ≠ "" →
      (∀ c ∈ db.components, c.mpn ≠ pyStrip mpn) →
      ∃ db2, add_component db now mpn manufacturer description category stock_qty
          min_stock unit_price datasheet_url notes = .ok db2 ∧
        db2.components = db.components ++
          [addedComponent db now mpn manufacturer description category stock_qty
            min_stock unit_price datasheet_url notes] ∧
        (addedComponent db now mpn manufacturer description category stock_qty
          min_stock unit_price datasheet_url notes).lifecycle_status = "Active" ∧
        (addedComponent db now mpn manufacturer description category stock_qty
          min_stock unit_price datasheet_url notes).last_checked = some now ∧
        (refresh_components db2).filter (fun c => c.mpn = pyStrip mpn) =
          [addedComponent db now mpn manufacturer description category stock_qty
            min_stock unit_price datasheet_url notes]) := by
  refine ⟨fun h => ?_, fun h => ?_, fun hm hman hdup => ?_⟩
  · exact ⟨"MPN and Manufacturer are required", by
      unfold add_component
      rw [if_pos h]⟩
  · by_cases h0 : pyStrip mpn = "" ∨ pyStrip manufacturer = ""
    · exact ⟨"MPN and Manufacturer are required", by
        unfold add_component
        rw [if_pos h0]⟩
    · rcases h with ⟨c, hc, hcm⟩
      have hany : db.components.any (fun c => c.mpn = pyStrip mpn) = true :=
        List.any_eq_true.mpr ⟨c, hc, by simp [hcm]⟩
      exact ⟨"UNIQUE constraint failed components mpn", by
        unfold add_component
        rw [if_neg h0, if_pos hany]⟩
  · have h0 : ¬ (pyStrip mpn = "" ∨ pyStrip manufacturer = "") := by
      rintro (h | h)
      exacts [hm h, hman h]
    have hany : ¬ (db.components.any (fun c => c.mpn = pyStrip mpn) = true) := by
      rw [List.any_eq_true]
      rintro ⟨c, hc, hcm⟩
      exact hdup c hc (by simpa using hcm)
    refine ⟨_, by
      unfold add_component
      rw [if_neg h0, if_neg hany], rfl, rfl, rfl, ?_⟩
    have hperm := (sortByMpn_perm (db.components ++
      [addedComponent db now mpn manufacturer description category stock_qty
        min_stock unit_price datasheet_url notes])).filter
      (fun c => c.mpn = pyStrip mpn)
    have hnil : db.components.filter (fun c => c.mpn = pyStrip mpn) = [] := by
      rw [List.filter_eq_nil_iff]
      intro c hc
      simpa using hdup c hc
    have hone : [addedComponent db now mpn manufacturer description category stock_qty
        min_stock unit_price datasheet_url notes].filter
          (fun c => c.mpn = pyStrip mpn) =
        [addedComponent db now mpn manufacturer description category stock_qty
          min_stock unit_price datasheet_url notes] := by
      simp [addedComponent]
    rw [List.filter_append, hnil, hone, List.nil_append] at hperm
    exact List.perm_singleton.mp hperm

theorem C4_add_component_witness :
    (∃ db2, add_component db0 5 "R1K" "Yageo" "res" "Passives" 100 10 0 "" "" = .ok db2 ∧
      db2.components = db0.components ++
        [addedComponent db0 5 "R1K" "Yageo" "res" "Passives" 100 10 0 "" ""] ∧
      (addedComponent db0 5 "R1K" "Yageo" "res" "Passives" 100 10 0 "" "").lifecycle_status =
        "Active" ∧
      (addedComponent db0 5 "R1K" "Yageo" "res" "Passives" 100 10 0 "" "").last_checked =
        some 5 ∧
      (refresh_components db2).filter (fun c => c.mpn = pyStrip "R1K") =
        [addedComponent db0 5 "R1K" "Yageo" "res" "Passives" 100 10 0 "" ""]) ∧
    (∃ msg, add_component db0 5 "" "Yageo" "res" "Passives" 100 10 0 "" "" = .error msg) :=
  ⟨(C4_add_component db0 5 "R1K" "Yageo" "res" "Passives" 100 10 0 "" "").2.2
      (by decide) (by decide) (by decide),
    (C4_add_component db0 5 "" "Yageo" "res" "Passives" 100 10 0 "" "").1
      (Or.inl (by decide))⟩

/-- C5: computeUnitCost returns exactly 0 for a project with no BOM lines,
and doubling every line quantity of a project doubles the result; the sum is
total on zero-priced components, whose lines simply contribute zero. -/
theorem C5_unit_cost (db : DB) (pid : Nat) :
    (db.bom.filter (fun b => b.project_id = pid) = [] → cost_analysis db pid = 0) ∧
    cost_analysis (doubleQty db pid) pid = 2 * cost_analysis db pid := by
  constructor
  · intro h
    simp [cost_analysis, h]
  · simp only [cost_analysis, doubleQty]
    exact cost_double_aux db.components pid db.bom

theorem C5_unit_cost_witness :
    cost_analysis db5 2 = 0 ∧
    cost_analysis (doubleQty db5 1) 1 = 2 * cost_analysis db5 1 :=
  ⟨(C5_unit_cost db5 2).1 (by decide), (C5_unit_cost db5 1).2⟩

/-- C6: a component is in the price-increase alert set exactly when two of
its history entries exist with the later-dated price exceeding the
earlier-dated price by more than ten percent, and the set, being a filter of
the components table with its unique MPNs, lists each qualifying component
at most once. -/
theorem C6_price_increase (db : DB) (c : Component)
    (hmpn : db.components.Pairwise (fun a b => a.mpn ≠ b.mpn)) :
    (c ∈ update_alerts_price_changes db ↔
      c ∈ db.components ∧ ∃ ph1 ∈ db.price_history, ∃ ph2 ∈ db.price_history,
        ph1.component_id = c.id ∧ ph2.component_id = c.id ∧ ph1.date < ph2.date ∧
        ph1.price * (11 / 10) < ph2.price) ∧
    (update_alerts_price_changes db).count c ≤ 1 := by
  constructor
  · simp only [update_alerts_price_changes, List.mem_filter, List.any_eq_true,
      Bool.and_eq_true, decide_eq_true_eq]
    constructor
    · rintro ⟨hc, ph1, h1, ph2, h2, hrest⟩
      exact ⟨hc, ph1, h1, ph2, h2, hrest.1.1.1, hrest.1.1.2, hrest.1.2, hrest.2⟩
    · rintro ⟨hc, ph1, h1, ph2, h2, hc1, hc2, hd, hp⟩
      exact ⟨hc, ph1, h1, ph2, h2, ⟨⟨hc1, hc2⟩, hd⟩, hp⟩
  · have hnd : (update_alerts_price_changes db).Nodup :=
      (hmpn.imp (fun h he => h (congrArg Component.mpn he))).filter _
    exact List.nodup_iff_count_le_one.mp hnd c

theorem C6_price_increase_witness :
    mkComp 1 "X" "Active" 0 0 0 ∈ update_alerts_price_changes db6 ∧
    mkComp 2 "Y" "Active" 0 0 0 ∉ update_alerts_price_changes db6 ∧
    (update_alerts_price_changes db6).count (mkComp 1 "X" "Active" 0 0 0) ≤ 1 := by
  have hX := C6_price_increase db6 (mkComp 1 "X" "Active" 0 0 0) (by decide)
  have hY := C6_price_increase db6 (mkComp 2 "Y" "Active" 0 0 0) (by decide)
  refine ⟨?_, ?_, hX.2⟩
  · apply hX.1.mpr
    refine ⟨by decide, ⟨1, 1, 1, 1, "Octopart"⟩, ?_, ⟨2, 1, 12 / 10, 2, "Octopart"⟩, ?_,
      rfl, rfl, by norm_num, by norm_num⟩
    · simp [db6]
    · simp [db6]
  · intro hmem
    rcases hY.1.mp hmem with ⟨-, ph1, h1, ph2, h2, hc1, hc2, hd, hp⟩
    simp only [db6, List.mem_cons, List.not_mem_nil, or_false] at h1 h2
    rcases h1 with rfl | rfl | rfl | rfl <;> rcases h2 with rfl | rfl | rfl | rfl <;>
      first
        | exact absurd hc1 (by decide)
        | exact absurd hc2 (by decide)
        | exact absurd hd (by decide)
        | exact absurd hp (show ¬ ((1 : ℚ) * (11 / 10) < 21 / 20) by norm_num)

/-- C7: a component is in the low-stock alert set exactly when its stock
quantity is strictly below its minimum-stock threshold and that threshold is
strictly positive. -/
theorem C7_low_stock (db : DB) (c : Component) :
    c ∈ update_alerts_low_stock db ↔
      c ∈ db.components ∧ c.stock_qty < c.min_stock ∧ 0 < c.min_stock := by
  simp [update_alerts_low_stock, List.mem_filter, and_assoc]

theorem C7_low_stock_witness :
    mkComp 1 "LOW" "Active" 5 10 0 ∈ update_alerts_low_stock db7 ∧
    mkComp 2 "OK" "Active" 5 0 0 ∉ update_alerts_low_stock db7 :=
  ⟨(C7_low_stock db7 (mkComp 1 "LOW" "Active" 5 10 0)).mpr (by decide),
    fun h => absurd ((C7_low_stock db7 (mkComp 2 "OK" "Active" 5 0 0)).mp h).2.2
      (by decide)⟩

/-- C8: the worker batch is at most ten components; for a successful lookup
it overwrites price, lifecycle status and last-checked and appends one
history entry with the Octopart source label; a failed lookup is skipped
without aborting the batch, leaving that row unchanged; the reported count
is the number of successes. -/
theorem C8_batch_update (db : DB) (now : Nat)
    (lookup : Nat → String → String → Option LookupResult) :
    (update_prices_octopart db now lookup).2 =
      ((select_batch db).filter (fun t => (lookup t.1 t.2.1 t.2.2).isSome)).length ∧
    (select_batch db).length ≤ 10 ∧
    (update_prices_octopart db now lookup).1.components.length = db.components.length ∧
    (update_prices_octopart db now lookup).1.price_history.length =
      db.price_history.length + (update_prices_octopart db now lookup).2 ∧
    (∀ e ∈ (update_prices_octopart db now lookup).1.price_history,
      e ∈ db.price_history ∨ e.source = "Octopart") ∧
    (∀ c ∈ db.components, ∀ l1 l2 r,
      select_batch db = l1 ++ (c.id, c.mpn, c.manufacturer) :: l2 →
      (∀ t ∈ l1, t.1 ≠ c.id) → (∀ t ∈ l2, t.1 ≠ c.id) →
      lookup c.id c.mpn c.manufacturer = some r →
      { c with unit_price := r.price, lifecycle_status := r.lifecycle, last_checked := some now }
        ∈ (update_prices_octopart db now lookup).1.components) ∧
    (∀ c ∈ db.components,
      (∀ t ∈ select_batch db, t.1 = c.id → lookup t.1 t.2.1 t.2.2 = none) →
      c ∈ (update_prices_octopart db now lookup).1.components) := by
  refine ⟨run_batch_count now lookup _ db, ?_, run_batch_components_length now lookup _ db,
    run_batch_history_length now lookup _ db, ?_, ?_, ?_⟩
  · exact List.length_take_le 10 (db.components.map (fun c => (c.id, c.mpn, c.manufacturer)))
  · intro e he
    exact (run_batch_history_shape now lookup (fun _ => True) (fun _ _ _ _ _ => trivial)
      (select_batch db) db e he).imp id (fun h => h.2)
  · intro c hc l1 l2 r hsplit h1 h2 hlk
    rw [show update_prices_octopart db now lookup =
        run_batch now lookup (select_batch db) db from rfl, hsplit]
    exact run_batch_updates now lookup l1 l2 db c r hc h1 h2 hlk
  · intro c hc hcond
    exact run_batch_preserves now lookup (select_batch db) db c hc hcond

theorem C8_batch_update_witness :
    (update_prices_octopart db8 7 lk8).2 = 4 ∧
    { mkComp 1 "P1" "Active" 0 0 0 with
      unit_price := 2, lifecycle_status := "Active", last_checked := some 7 }
      ∈ (update_prices_octopart db8 7 lk8).1.components ∧
    mkComp 3 "P3" "Active" 0 0 0 ∈ (update_prices_octopart db8 7 lk8).1.components := by
  have h := C8_batch_update db8 7 lk8
  refine ⟨h.1.trans (by decide), ?_, ?_⟩
  · exact h.2.2.2.2.2.1 (mkComp 1 "P1" "Active" 0 0 0) (by decide)
      [] [(2, "P2", "Acme"), (3, "P3", "Acme"), (4, "P4", "Acme"), (5, "P5", "Acme")]
      ⟨2, "Active"⟩ (by decide) (by decide) (by decide) rfl
  · exact h.2.2.2.2.2.2 (mkComp 3 "P3" "Active" 0 0 0) (by decide) (by decide)

/-- C9 (counterexample): the claim says listComponents returns rows ordered
by MPN ascending both with and without a filter, but the keyword search path
has no ORDER BY: on a table holding B then A the empty-keyword search
returns rowid order B, A, which is not ascending by MPN. -/
theorem C9_keyword_order_refuted :
    ¬ (search_components db9 "").Pairwise (fun a b => a.mpn ≤ b.mpn) := by
  intro h
  have he : search_components db9 "" =
      [mkComp 1 "B" "Active" 0 0 0, mkComp 2 "A" "Active" 0 0 0] := by decide
  rw [he] at h
  have hle := (List.pairwise_cons.mp h).1 _ (List.mem_cons_self _ _)
  exact absurd ((strLe_iff_le "B" "A").mpr hle) (by decide)

/-- C9 (amended): the unfiltered and category-filtered listings are ordered
by MPN ascending, category filtering is an exact match with the
"All Categories" sentinel returning everything, and the keyword search
matches case-insensitively against MPN, manufacturer or description
substrings but returns rows in table order, a sublist of the components
table, rather than sorted by MPN. -/
theorem C9_listing (db : DB) (category keyword : String) (c : Component) :
    (filter_components db category).Pairwise (fun a b => a.mpn ≤ b.mpn) ∧
    (c ∈ filter_components db category ↔
      c ∈ db.components ∧ (category = "All Categories" ∨ c.category = category)) ∧
    List.Sublist (search_components db keyword) db.components ∧
    (c ∈ search_components db keyword ↔
      c ∈ db.components ∧
        (likeContains c.mpn keyword = true ∨ likeContains c.manufacturer keyword = true ∨
          likeContains c.description keyword = true)) := by
  refine ⟨?_, ?_, List.filter_sublist _, ?_⟩
  · unfold filter_components
    split
    · exact sortByMpn_sorted _
    · exact sortByMpn_sorted _
  · by_cases hcat : category = "All Categories"
    · simp [filter_components, hcat, (sortByMpn_perm db.components).mem_iff]
    · simp [filter_components, hcat, (sortByMpn_perm _).mem_iff, List.mem_filter]
  · simp [search_components, List.mem_filter, or_assoc]

/-- C10: every lifecycle status the simulated worker writes is Active, NRND
or EOL — never Obsolete — and every price it writes, to the component row
and to its history entry alike, lies between 0.10 and 50.00 and is rounded
to two decimal places, given that the uniform draws respect their interval. -/
theorem C10_simulated_values (u : Nat → ℚ) (k : Nat → Nat)
    (hu : ∀ i, 1 / 10 ≤ u i ∧ u i ≤ 50) (db : DB) (now : Nat) :
    (∀ e ∈ (update_prices_octopart db now (sim_lookup u k)).1.price_history,
      e ∈ db.price_history ∨
        (1 / 10 ≤ e.price ∧ e.price ≤ 50 ∧ TwoDecimal e.price ∧ e.source = "Octopart")) ∧
    (∀ c ∈ (update_prices_octopart db now (sim_lookup u k)).1.components,
      c ∈ db.components ∨
        ((c.lifecycle_status = "Active" ∨ c.lifecycle_status = "NRND" ∨
            c.lifecycle_status = "EOL") ∧ c.lifecycle_status ≠ "Obsolete" ∧
          1 / 10 ≤ c.unit_price ∧ c.unit_price ≤ 50 ∧ TwoDecimal c.unit_price)) := by
  have hq : ∀ cid mpn man r, sim_lookup u k cid mpn man = some r →
      (1 / 10 ≤ r.price ∧ r.price ≤ 50 ∧ TwoDecimal r.price) ∧
      ((r.lifecycle = "Active" ∨ r.lifecycle = "NRND" ∨ r.lifecycle = "EOL") ∧
        r.lifecycle ≠ "Obsolete") := by
    intro cid mpn man r hr
    have hre : r = ⟨round2 (u cid), simulated_lifecycle (k cid)⟩ := by
      simpa [sim_lookup] using hr.symm
    subst hre
    exact ⟨round2_bounds (u cid) (hu cid).1 (hu cid).2, simulated_lifecycle_cases (k cid)⟩
  constructor
  · intro e he
    rcases run_batch_history_shape now (sim_lookup u k)
      (fun q => 1 / 10 ≤ q ∧ q ≤ 50 ∧ TwoDecimal q)
      (fun cid mpn man r hr => ((hq cid mpn man r hr).1))
      (select_batch db) db e he with h | h
    · exact Or.inl h
    · exact Or.inr ⟨h.1.1, h.1.2.1, h.1.2.2, h.2⟩
  · intro c hc
    rcases run_batch_components_shape now (sim_lookup u k)
      (fun q => 1 / 10 ≤ q ∧ q ≤ 50 ∧ TwoDecimal q)
      (fun s => (s = "Active" ∨ s = "NRND" ∨ s = "EOL") ∧ s ≠ "Obsolete")
      (fun cid mpn man r hr => hq cid mpn man r hr)
      (select_batch db) db c hc with h | h
    · exact Or.inl h
    · exact Or.inr ⟨h.2.1.1, h.2.1.2, h.1.1, h.1.2.1, h.1.2.2⟩

theorem C10_simulated_values_witness :
    (∀ i, 1 / 10 ≤ u0 i ∧ u0 i ≤ 50) ∧
    (∀ c ∈ (update_prices_octopart db10 3 (sim_lookup u0 k0)).1.components,
      c ∈ db10.components ∨
        ((c.lifecycle_status = "Active" ∨ c.lifecycle_status = "NRND" ∨
            c.lifecycle_status = "EOL") ∧ c.lifecycle_status ≠ "Obsolete" ∧
          1 / 10 ≤ c.unit_price ∧ c.unit_price ≤ 50 ∧ TwoDecimal c.unit_price)) :=
  ⟨fun i => by norm_num [u0],
    (C10_simulated_values u0 k0 (fun i => by norm_num [u0]) db10 3).2⟩

end HET
